import Mathlib

/-!
# Search request builder, template cache and hit hydration (`srv_search.go`)

A shallow embedding of `SearchService` from `srv_search.go`: the fluent setters,
`Template` with the process-wide `templates` cache, and `Execute` with its
URL construction, envelope decoding and hit hydration.

Everything that lives outside `srv_search.go` (HTTP transport, `encoding/json`,
`text/template`, `ReadFile`, the logger, the client configuration) is gathered in a
`World` record of capabilities, and every call made to one of them is recorded in a
trace of `Event`s, so that "which request was sent" or "was the file read" are
statements about values.
-/

set_option autoImplicit false
set_option linter.unusedVariables false

namespace Elastic

/-! ## Data model -/

/-- Go byte slice (`[]byte`, `json.RawMessage`): `none` is the nil slice, `some s` is a
non-nil slice holding the bytes of `s` (possibly of length zero). -/
abbrev ByteSlice := Option String

/-- Go conversion `string(b)` of a byte slice: the nil slice gives the empty string. -/
def goString (b : ByteSlice) : String := b.getD ""

/-- Result of `(*bytes.Buffer).Bytes()` on a zero-value buffer into which `out` was
written: the buffer never allocates for zero bytes, so the slice is nil in that case. -/
def bufferBytes (out : String) : ByteSlice := if out = "" then none else some out

/-- Go `error` values. `wrapped code err` is `errors.New(errors.ErrorLevel, code, err)`. -/
inductive GoError where
  | cause (msg : String)
  | wrapped (code : Int) (err : GoError)
  deriving DecidableEq, Repr

/-- HTTP verbs used by the builder (`web.MethodGet`, `web.MethodPost`). -/
inductive Method where
  | get
  | post
  deriving DecidableEq, Repr

/-- Values stored in `parameters map[string]interface{}`: `From` and `Size` store an
`int`, `Scroll` stores a `string`. -/
inductive ParamValue where
  | int (n : Int)
  | str (s : String)
  deriving DecidableEq, Repr

/-- Rendering of a parameter value by the `%+v` verb. -/
def fmtValue : ParamValue → String
  | .int n => toString n
  | .str s => s

/-- Go `map[string]V`, kept as an association list with pairwise distinct keys.
The position of an entry carries no meaning: `range` may visit the entries in any
order. -/
abbrev GoMap (V : Type) := List (String × V)

/-- Map read `v, found := m[key]`; `none` means `found = false`. -/
def mapLookup {V : Type} (m : GoMap V) (key : String) : Option V :=
  List.lookup key m

/-- Map write `m[key] = v`. -/
def mapAssign {V : Type} (m : GoMap V) (key : String) (v : V) : GoMap V :=
  (key, v) :: m.filter (fun p => p.1 != key)

def constScroll : String := "scroll"

def constFrom : String := "from"

def constSize : String := "size"

/-- One element of `SearchResponse.Hits.Hits`. -/
structure Hit where
  index : String
  typ : String
  id : String
  score : Int
  source : ByteSlice
  deriving DecidableEq, Repr

/-- Field `Shards` of `SearchResponse`. -/
structure Shards where
  total : Int
  successful : Int
  skipped : Int
  failed : Int
  deriving DecidableEq, Repr

/-- Field `Hits` of `SearchResponse`. -/
structure HitList where
  total : Int
  maxScore : Int
  hits : List Hit
  deriving DecidableEq, Repr

structure OnErrorDocumentNotFound where
  index : String
  typ : String
  id : String
  found : Bool
  deriving DecidableEq, Repr

/-- Modelled from the spec: the type `OnError` embedded in `SearchResponse` is declared
outside `srv_search.go`; the spec calls it "an implementation-defined error payload from
the search engine", so it is kept as an uninterpreted payload. -/
structure OnError where
  payload : String
  deriving DecidableEq, Repr

/-- Decoded envelope. The two embedded pointers `*OnError` and
`*OnErrorDocumentNotFound` are `none` when nil. -/
structure SearchResponse where
  took : Int
  timedOut : Bool
  shards : Shards
  hits : HitList
  onError : Option OnError
  notFound : Option OnErrorDocumentNotFound
  deriving DecidableEq, Repr

/-- Argument `data *SearchTemplate` of `Template`; `data` is the caller's template
payload, uninterpreted here. -/
structure SearchTemplate where
  data : String
  «from» : Int
  size : Int
  deriving DecidableEq, Repr

/-- Builder state. `object` is the `interface{}` destination: `none` when it was never
set (nil interface), `some d` when it points to a caller container whose current
content is `d`. The `client` pointer is not part of the record: what is reached through
it is the `World`. -/
structure SearchService (D : Type) where
  index : String
  typ : String
  id : String
  body : ByteSlice
  object : Option D
  parameters : GoMap ParamValue
  method : Method

/-- Calls that leave `srv_search.go`, in the order they are made. -/
inductive Event where
  | readFile (key : String)
  | logError (err : GoError)
  | parse (name : String) (src : String)
  | executeTemplate (name : String)
  | newRequest (method : Method) (url : String)
  | send (body : ByteSlice)
  | decode (responseBody : ByteSlice)
  | marshal (rawHits : List ByteSlice)
  | unmarshal (arrayHits : ByteSlice)
  deriving DecidableEq, Repr

/-- Capabilities consumed by the builder.
* `endpoint` is `e.client.config.Endpoint`;
* `readFile key` is `ReadFile(key, nil)`: the bytes and the error it returns;
* `parse name src` is the error of `template.New(name).Parse(src)`;
* `executeTemplate name src data` is what `t.ExecuteTemplate(&result, name, data)` wrote
  to the buffer, and its error;
* `newRequest`, `send` are the HTTP client; `send` returns `response.Body`;
* `jsonDecode` is `json.Unmarshal` into a fresh `SearchResponse`;
* `jsonMarshal` is `json.Marshal` of a `[]json.RawMessage`;
* `jsonUnmarshal arrayHits d` is `json.Unmarshal(arrayHits, p)` for a destination
  pointer `p` whose container holds `d`: the new content and the error. -/
structure World (D : Type) where
  endpoint : String
  readFile : String → ByteSlice × Option GoError
  parse : String → String → Option GoError
  executeTemplate : String → String → Option SearchTemplate → String × Option GoError
  newRequest : Method → String → Option GoError
  send : Method → String → ByteSlice → Except GoError ByteSlice
  jsonDecode : ByteSlice → Except GoError SearchResponse
  jsonMarshal : List ByteSlice → Except GoError ByteSlice
  jsonUnmarshal : ByteSlice → D → D × Option GoError

/-! ## Setters -/

variable {D : Type}

def NewSearchService : SearchService D :=
  { index := "", typ := "", id := "", body := none, object := none,
    parameters := [], method := Method.get }

def SearchService.Index (e : SearchService D) (index : String) : SearchService D :=
  { e with index := index }

def SearchService.Typ (e : SearchService D) (typ : String) : SearchService D :=
  { e with typ := typ }

def SearchService.Id (e : SearchService D) (id : String) : SearchService D :=
  { e with id := id }

def SearchService.Body (e : SearchService D) (body : ByteSlice) : SearchService D :=
  { e with body := body }

/-- Setter `Query(query)`; `queryBytes` is the value of `query.Bytes()`. -/
def SearchService.Query (e : SearchService D) (queryBytes : ByteSlice) : SearchService D :=
  { e with body := queryBytes }

def SearchService.Object (e : SearchService D) (object : Option D) : SearchService D :=
  { e with object := object }

def SearchService.From (e : SearchService D) («from» : Int) : SearchService D :=
  { e with parameters := mapAssign e.parameters constFrom (ParamValue.int «from») }

def SearchService.Size (e : SearchService D) (size : Int) : SearchService D :=
  { e with parameters := mapAssign e.parameters constSize (ParamValue.int size) }

def SearchService.Scroll (e : SearchService D) (scrollTime : String) : SearchService D :=
  { e with parameters := mapAssign e.parameters constScroll (ParamValue.str scrollTime) }

/-! ## Template -/

/-- Outcome of a `Template` call: the builder, the `templates` cache and the calls made. -/
structure TemplateResult (D : Type) where
  service : SearchService D
  templates : GoMap ByteSlice
  trace : List Event

/-- Lines 140-154 of `Template`: parse `string(templates[key])`, execute it into a fresh
buffer and, only when both succeed, store the buffer in `body`. -/
def renderTemplate (w : World D) (templates : GoMap ByteSlice) (e : SearchService D)
    (key name : String) (data : Option SearchTemplate) (trace : List Event) :
    TemplateResult D :=
  let src := goString ((mapLookup templates key).getD none)
  match w.parse name src with
  | none =>
    match w.executeTemplate name src data with
    | (result, none) =>
      { service := { e with body := bufferBytes result }, templates := templates,
        trace := trace ++ [Event.parse name src, Event.executeTemplate name] }
    | (_, some err) =>
      { service := e, templates := templates,
        trace := trace ++ [Event.parse name src, Event.executeTemplate name,
          Event.logError err] }
  | some err =>
    { service := e, templates := templates,
      trace := trace ++ [Event.parse name src, Event.logError err] }

def SearchService.Template (w : World D) (templates : GoMap ByteSlice) (e : SearchService D)
    (path name : String) (data : Option SearchTemplate) (reload : Bool) :
    TemplateResult D :=
  let key := path ++ "/" ++ name
  if (mapLookup templates key).isSome then
    renderTemplate w templates e key name data []
  else
    let read := w.readFile key
    let templates := mapAssign templates key read.1
    match read.2 with
    | some err =>
      { service := e, templates := templates,
        trace := [Event.readFile key, Event.logError err] }
    | none => renderTemplate w templates e key name data [Event.readFile key]

/-! ## Execute -/

/-- Lines 159-161: promotion of the stored method. -/
def promoteMethod (e : SearchService D) : SearchService D :=
  if e.body ≠ none then { e with method := Method.post } else e

/-- Body of the `range e.parameters` loop (lines 177-182) on the pair
`(query, addSeparator)`. -/
def paramStep (acc : String × Bool) (p : String × ParamValue) : String × Bool :=
  let query := if acc.2 then acc.1 ++ "&" else acc.1
  (query ++ (p.1 ++ "=" ++ fmtValue p.2), true)

/-- Lines 163-183: the local `query`. `order` is the sequence in which `range` visits
the entries of `e.parameters`. -/
def requestQuery (e : SearchService D) (order : List (String × ParamValue)) : String :=
  let query := ""
  let query := if e.id ≠ "" then query ++ ("/" ++ e.id) else query ++ "/_search"
  let lenQ := e.parameters.length
  let query := if lenQ > 0 then query ++ "?" else query
  (order.foldl paramStep (query, false)).1

/-- Argument of `NewRequest` on line 185. -/
def requestUrl (w : World D) (e : SearchService D) (order : List (String × ParamValue)) :
    String :=
  w.endpoint ++ "/" ++ e.index ++ requestQuery e order

/-- Lines 205-208: `rawHits` is allocated with the length of the hit list and filled by
index. -/
def fillRawHits (hits : List Hit) : List ByteSlice :=
  hits.enum.foldl (fun rawHits ih => rawHits.set ih.1 ih.2.source)
    (List.replicate hits.length none)

/-- Call `json.Unmarshal(arrayHits, e.object)`: a nil destination is rejected with an
`InvalidUnmarshalError` before anything is decoded. -/
def unmarshalObject (w : World D) (arrayHits : ByteSlice) (object : Option D) :
    Option D × Option GoError :=
  match object with
  | none => (none, some (GoError.cause "json: Unmarshal(nil)"))
  | some d => ((w.jsonUnmarshal arrayHits d).1 |> some, (w.jsonUnmarshal arrayHits d).2)

/-- Outcome of an `Execute` call: the builder afterwards, the two returned values and
the calls made. -/
structure ExecuteResult (D : Type) where
  service : SearchService D
  response : Option SearchResponse
  err : Option GoError
  trace : List Event

/-- Lines 201-219, after the envelope was decoded. -/
def hydrate (w : World D) (e : SearchService D) (elasticResponse : SearchResponse)
    (trace : List Event) : ExecuteResult D :=
  if elasticResponse.onError ≠ none then
    { service := e, response := some elasticResponse, err := none, trace := trace }
  else
    let rawHits := fillRawHits elasticResponse.hits.hits
    match w.jsonMarshal rawHits with
    | Except.error err =>
      { service := e, response := none, err := some (GoError.wrapped 0 err),
        trace := trace ++ [Event.marshal rawHits] }
    | Except.ok arrayHits =>
      match unmarshalObject w arrayHits e.object with
      | (object, some err) =>
        { service := { e with object := object }, response := none,
          err := some (GoError.wrapped 0 err),
          trace := trace ++ [Event.marshal rawHits, Event.unmarshal arrayHits] }
      | (object, none) =>
        { service := { e with object := object }, response := some elasticResponse,
          err := none,
          trace := trace ++ [Event.marshal rawHits, Event.unmarshal arrayHits] }

def SearchService.Execute (w : World D) (e : SearchService D)
    (order : List (String × ParamValue)) : ExecuteResult D :=
  let e := promoteMethod e
  let url := requestUrl w e order
  match w.newRequest e.method url with
  | some err =>
    { service := e, response := none, err := some (GoError.wrapped 0 err),
      trace := [Event.newRequest e.method url] }
  | none =>
    match w.send e.method url e.body with
    | Except.error err =>
      { service := e, response := none, err := some (GoError.wrapped 0 err),
        trace := [Event.newRequest e.method url, Event.send e.body] }
    | Except.ok responseBody =>
      match w.jsonDecode responseBody with
      | Except.error err =>
        { service := e, response := none, err := some (GoError.wrapped 0 err),
          trace := [Event.newRequest e.method url, Event.send e.body,
            Event.decode responseBody, Event.logError err] }
      | Except.ok elasticResponse =>
        hydrate w e elasticResponse
          [Event.newRequest e.method url, Event.send e.body, Event.decode responseBody]

/-! ## Call sequences -/

/-- One call on a builder. `Query` carries the bytes its argument serialises to, and
`Execute` the order in which the runtime iterates the parameter map during that call. -/
inductive Op (D : Type) where
  | Index (index : String)
  | Typ (typ : String)
  | Id (id : String)
  | Body (body : ByteSlice)
  | Query (queryBytes : ByteSlice)
  | Object (object : Option D)
  | From («from» : Int)
  | Size (size : Int)
  | Scroll (scrollTime : String)
  | Template (path name : String) (data : Option SearchTemplate) (reload : Bool)
  | Execute (order : List (String × ParamValue))

/-- Builder, process-wide template cache, and the calls made so far. -/
structure Sys (D : Type) where
  service : SearchService D
  templates : GoMap ByteSlice
  trace : List Event

def step (w : World D) (σ : Sys D) : Op D → Sys D
  | Op.Index index => { σ with service := σ.service.Index index }
  | Op.Typ typ => { σ with service := σ.service.Typ typ }
  | Op.Id id => { σ with service := σ.service.Id id }
  | Op.Body body => { σ with service := σ.service.Body body }
  | Op.Query queryBytes => { σ with service := σ.service.Query queryBytes }
  | Op.Object object => { σ with service := σ.service.Object object }
  | Op.From n => { σ with service := σ.service.From n }
  | Op.Size n => { σ with service := σ.service.Size n }
  | Op.Scroll scrollTime => { σ with service := σ.service.Scroll scrollTime }
  | Op.Template path name data reload =>
    let r := SearchService.Template w σ.templates σ.service path name data reload
    { service := r.service, templates := r.templates, trace := σ.trace ++ r.trace }
  | Op.Execute order =>
    let r := SearchService.Execute w σ.service order
    { σ with service := r.service, trace := σ.trace ++ r.trace }

def run (w : World D) (σ : Sys D) (ops : List (Op D)) : Sys D :=
  ops.foldl (step w) σ

/-- A fresh builder next to a cache in state `templates`. -/
def fresh (templates : GoMap ByteSlice) : Sys D :=
  { service := NewSearchService, templates := templates, trace := [] }

/-! ## Notions the statements are phrased with -/

/-- Rendering `key=value` of one parameter. -/
def renderPair (p : String × ParamValue) : String :=
  p.1 ++ "=" ++ fmtValue p.2

/-- The query string as the specification words it: nothing when there is no parameter,
otherwise `?` followed by the `key=value` pairs joined by `&`. -/
def specQueryString (pairs : List (String × ParamValue)) : String :=
  match pairs with
  | [] => ""
  | _ :: _ => "?" ++ "&".intercalate (pairs.map renderPair)

/-- The URL path as the specification words it. -/
def specPath (id : String) : String :=
  if id ≠ "" then "/" ++ id else "/_search"

/-- The parameter a call sets, if it is one of `From`, `Size`, `Scroll`. -/
def paramCall : Op D → Option (String × ParamValue)
  | Op.From n => some (constFrom, ParamValue.int n)
  | Op.Size n => some (constSize, ParamValue.int n)
  | Op.Scroll scrollTime => some (constScroll, ParamValue.str scrollTime)
  | _ => none

/-- Value given to `key` by the last call of a sequence that sets it. -/
def lastSet (ops : List (Op D)) (key : String) : Option ParamValue :=
  (((ops.filterMap paramCall).filter (fun p => p.1 == key)).getLast?).map (fun p => p.2)

/-- The bytes a `Template` call hands to the template engine when it gets that far:
the cached entry, or what the file read returned when the key was absent. -/
def templateSource (w : World D) (templates : GoMap ByteSlice) (key : String) : ByteSlice :=
  match mapLookup templates key with
  | some bytes => bytes
  | none => (w.readFile key).1

/-- Method and URL handed to `NewRequest`, read off the recorded calls. -/
def requested (trace : List Event) : Option (Method × String) :=
  match trace with
  | Event.newRequest method url :: _ => some (method, url)
  | _ => none

/-- The keys read from disk during a sequence of recorded calls. -/
def fileReads (trace : List Event) : List String :=
  trace.filterMap (fun ev => match ev with
    | Event.readFile key => some key
    | _ => none)

/-- Whether hydration was attempted: a payload array was marshalled or decoded. -/
def hydrationAttempted (trace : List Event) : Bool :=
  trace.any (fun ev => match ev with
    | Event.marshal _ => true
    | Event.unmarshal _ => true
    | _ => false)

/-- The exchange of `Execute` on builder `e` succeeds and its response body decodes into
the envelope `resp`: `NewRequest` and `Send` return no error and `json.Unmarshal` into
the `SearchResponse` returns no error. -/
def answers (w : World D) (e : SearchService D) (order : List (String × ParamValue))
    (resp : SearchResponse) : Prop :=
  ∃ responseBody,
    w.newRequest (promoteMethod e).method (requestUrl w (promoteMethod e) order) = none ∧
    w.send (promoteMethod e).method (requestUrl w (promoteMethod e) order)
      (promoteMethod e).body = Except.ok responseBody ∧
    w.jsonDecode responseBody = Except.ok resp

/-! ## Concrete collaborators used to evaluate the definitions -/

/-- Two hits whose payloads are the documents of the hydration example. -/
def demoHits : List Hit :=
  [ { index := "persons", typ := "person", id := "1", score := 1,
      source := some "\x7b\"a\":1\x7d" },
    { index := "persons", typ := "person", id := "2", score := 1,
      source := some "\x7b\"a\":2\x7d" } ]

/-- An envelope with a given hit list and markers. -/
def demoResponse (hits : List Hit) (onError : Option OnError)
    (notFound : Option OnErrorDocumentNotFound) : SearchResponse :=
  { took := 7, timedOut := false,
    shards := { total := 1, successful := 1, skipped := 0, failed := 0 },
    hits := { total := hits.length, maxScore := 1, hits := hits },
    onError := onError, notFound := notFound }

/-- A world over integer-list containers in which every exchange succeeds and the
engine answers with `resp`; decoding into the container succeeds with content `out`
unless `fail` is set, and no template file can be read. -/
def demoWorld (resp : SearchResponse) (out : List Int) (fail : Bool) : World (List Int) :=
  { endpoint := "http://localhost:9200",
    readFile := fun _ => (none, some (GoError.cause "open: no such file")),
    parse := fun _ src => if src = "" then none else some (GoError.cause "template: parse"),
    executeTemplate := fun _ src _ => (src, none),
    newRequest := fun _ _ => none,
    send := fun _ _ _ => Except.ok (some "response"),
    jsonDecode := fun _ => Except.ok resp,
    jsonMarshal := fun rawHits =>
      Except.ok (some ("[" ++ ",".intercalate (rawHits.map (fun r => r.getD "null")) ++ "]")),
    jsonUnmarshal := fun _ d =>
      if fail then (d, some (GoError.cause "json: cannot unmarshal")) else (out, none) }

/-- The envelope of the hydration example: two hits, no marker. -/
def demoEnvelope : SearchResponse := demoResponse demoHits none none

/-- An envelope carrying a generic error next to a non-empty hit list. -/
def demoErrorEnvelope : SearchResponse :=
  demoResponse demoHits (some { payload := "index_not_found_exception" }) none

/-- An envelope of the not-found form: marker present, `found = false`, no generic
error, no hits. -/
def demoNotFound : SearchResponse :=
  demoResponse [] none
    (some { index := "persons", typ := "person", id := "42", found := false })

/-- A world that answers with the two-hit envelope and hydrates `[1, 2]`. -/
def demoOk : World (List Int) := demoWorld demoEnvelope [1, 2] false

/-- A world that answers with the two-hit envelope and cannot decode the payloads into
the destination. -/
def demoMismatch : World (List Int) := demoWorld demoEnvelope [1, 2] true

/-- A builder on index `persons` with an empty destination container. -/
def demoBuilder : SearchService (List Int) :=
  (NewSearchService.Index "persons").Object (some [])

/-- A single-document lookup without destination. -/
def demoLookup : SearchService (List Int) :=
  (NewSearchService.Index "persons").Id "42"

/-- A call sequence that sets `from` twice, `size` once and `scroll` once. -/
def demoOps : List (Op (List Int)) :=
  [Op.From 0, Op.Size 10, Op.From 5, Op.Index "persons", Op.Scroll "1m"]

/-! ## Hydration -/

theorem foldl_set_enumFrom (hits : List Hit) (done : List ByteSlice) :
    (hits.enumFrom done.length).foldl (fun rawHits ih => rawHits.set ih.1 ih.2.source)
        (done ++ List.replicate hits.length none)
      = done ++ hits.map (fun h => h.source) := by
  induction hits generalizing done with
  | nil => simp
  | cons h t ih =>
    have hset : (done ++ List.replicate (t.length + 1) (none : ByteSlice)).set done.length
        h.source = (done ++ [h.source]) ++ List.replicate t.length none := by
      simp [List.replicate_succ, List.set_append]
    have hlen : done.length + 1 = (done ++ [h.source]).length := by simp
    simp only [List.enumFrom_cons, List.foldl_cons, List.length_cons, List.map_cons]
    rw [hset, hlen, ih (done ++ [h.source])]
    simp

/-- The index-by-index fill of `rawHits` yields the payloads of the hits, in order. -/
theorem fillRawHits_eq_map (hits : List Hit) :
    fillRawHits hits = hits.map (fun h => h.source) := by
  have h := foldl_set_enumFrom hits []
  simpa [fillRawHits, List.enum] using h

/-! ## Query string -/

theorem foldl_paramStep_sep (rest : List (String × ParamValue)) (q acc : String) :
    (rest.foldl paramStep (q ++ acc, true)).1
      = q ++ String.intercalate.go acc "&" (rest.map renderPair) := by
  induction rest generalizing acc with
  | nil => simp [String.intercalate.go]
  | cons p t ih =>
    have hstep : paramStep (q ++ acc, true) p = (q ++ (acc ++ "&" ++ renderPair p), true) := by
      simp [paramStep, renderPair, String.append_assoc]
    simp only [List.foldl_cons, List.map_cons, String.intercalate.go, hstep]
    exact ih _

theorem foldl_paramStep (order : List (String × ParamValue)) (q : String) :
    (order.foldl paramStep (if order.length > 0 then q ++ "?" else q, false)).1
      = q ++ specQueryString order := by
  cases order with
  | nil => simp [specQueryString]
  | cons p t =>
    have hstep : paramStep (q ++ "?", false) p = ((q ++ "?") ++ renderPair p, true) := by
      simp [paramStep, renderPair]
    simp only [List.length_cons, Nat.succ_pos, gt_iff_lt, if_true, List.foldl_cons, hstep,
      specQueryString, List.map_cons, String.intercalate]
    rw [foldl_paramStep_sep, String.append_assoc]

/-- The local `query` of `Execute` is the path followed by the query string, whenever
the loop visits as many entries as the map holds. -/
theorem requestQuery_eq (e : SearchService D) (order : List (String × ParamValue))
    (hlen : order.length = e.parameters.length) :
    requestQuery e order = specPath e.id ++ specQueryString order := by
  unfold requestQuery
  simp only [← hlen]
  rw [foldl_paramStep]
  by_cases hid : e.id = "" <;> simp [specPath, hid]

/-! ## Maps -/

theorem mapLookup_mapAssign {V : Type} (m : GoMap V) (k key : String) (v : V) :
    mapLookup (mapAssign m k v) key = if key = k then some v else mapLookup m key := by
  unfold mapLookup mapAssign
  by_cases h : key = k
  · subst h
    simp [List.lookup_cons]
  · have hbeq : (key == k) = false := by simpa using h
    simp only [List.lookup_cons, hbeq, h, if_false]
    induction m with
    | nil => simp
    | cons p t ih =>
      by_cases hp : p.1 = k
      · have hkp : (key == p.1) = false := by
          rw [hp]
          exact hbeq
        have hcons : p :: t = (p.1, p.2) :: t := rfl
        rw [hcons, List.lookup_cons, hkp]
        simp [List.filter_cons, hp, ih]
      · have hcons : p :: t = (p.1, p.2) :: t := rfl
        have hfil : List.filter (fun q : String × V => q.1 != k) (p :: t)
            = (p.1, p.2) :: List.filter (fun q : String × V => q.1 != k) t := by
          simp [List.filter_cons, hp]
        rw [hfil, hcons, List.lookup_cons, List.lookup_cons, ih]

theorem filter_key_mapAssign {V : Type} (m : GoMap V) (k key : String) (v : V) :
    (mapAssign m k v).filter (fun p => p.1 == key)
      = if k = key then [(k, v)] else m.filter (fun p => p.1 == key) := by
  unfold mapAssign
  by_cases h : k = key
  · subst h
    simp only [List.filter_cons, beq_self_eq_true, if_true, List.filter_filter]
    have : List.filter (fun p : String × V => (p.1 == k) && (p.1 != k)) m = [] := by
      apply List.filter_eq_nil_iff.mpr
      intro p _
      by_cases hp : p.1 = k <;> simp [hp]
    simp [this]
  · have hbeq : (k == key) = false := by simpa using h
    simp only [List.filter_cons, hbeq, h, if_false, List.filter_filter]
    apply List.filter_congr
    intro p _
    by_cases hp : p.1 = key
    · have : p.1 ≠ k := fun hk => h (hk ▸ hp)
      simp [hp, this]
      exact fun hk => h hk.symm
    · simp [hp]

/-! ## Frame properties of `Template` and `Execute` -/

theorem renderTemplate_templates (w : World D) (templates : GoMap ByteSlice)
    (e : SearchService D) (key name : String) (data : Option SearchTemplate)
    (trace : List Event) :
    (renderTemplate w templates e key name data trace).templates = templates := by
  unfold renderTemplate
  simp only
  split
  · split <;> rfl
  · rfl

theorem renderTemplate_frame (w : World D) (templates : GoMap ByteSlice)
    (e : SearchService D) (key name : String) (data : Option SearchTemplate)
    (trace : List Event) :
    ∃ body, (renderTemplate w templates e key name data trace).service
      = { e with body := body } := by
  unfold renderTemplate
  simp only
  split
  · split
    · exact ⟨_, rfl⟩
    · exact ⟨e.body, rfl⟩
  · exact ⟨e.body, rfl⟩

theorem renderTemplate_fail (w : World D) (templates : GoMap ByteSlice)
    (e : SearchService D) (key name : String) (data : Option SearchTemplate)
    (trace : List Event)
    (h : w.parse name (goString ((mapLookup templates key).getD none)) ≠ none ∨
      (w.executeTemplate name (goString ((mapLookup templates key).getD none)) data).2
        ≠ none) :
    (renderTemplate w templates e key name data trace).service = e := by
  unfold renderTemplate
  simp only
  split
  · rename_i hparse
    split
    · rename_i result hexec
      rcases h with h | h
      · exact absurd hparse h
      · rw [hexec] at h
        exact absurd rfl h
    · rfl
  · rfl

theorem renderTemplate_trace (w : World D) (templates : GoMap ByteSlice)
    (e : SearchService D) (key name : String) (data : Option SearchTemplate)
    (trace : List Event) :
    ∃ rest, (renderTemplate w templates e key name data trace).trace
        = trace ++ Event.parse name (goString ((mapLookup templates key).getD none)) :: rest
      ∧ fileReads rest = [] := by
  unfold renderTemplate
  simp only
  split
  · split
    · exact ⟨_, rfl, rfl⟩
    · exact ⟨_, rfl, rfl⟩
  · exact ⟨_, rfl, rfl⟩

theorem Template_frame (w : World D) (templates : GoMap ByteSlice) (e : SearchService D)
    (path name : String) (data : Option SearchTemplate) (reload : Bool) :
    ∃ body, (SearchService.Template w templates e path name data reload).service
      = { e with body := body } := by
  unfold SearchService.Template
  simp only
  split
  · exact renderTemplate_frame _ _ _ _ _ _ _
  · split
    · exact ⟨e.body, rfl⟩
    · exact renderTemplate_frame _ _ _ _ _ _ _

theorem Template_cached (w : World D) (templates : GoMap ByteSlice) (e : SearchService D)
    (path name : String) (data : Option SearchTemplate) (reload : Bool)
    (h : (mapLookup templates (path ++ "/" ++ name)).isSome) :
    SearchService.Template w templates e path name data reload
      = renderTemplate w templates e (path ++ "/" ++ name) name data [] := by
  unfold SearchService.Template
  simp only [h, if_true]

theorem Template_templates (w : World D) (templates : GoMap ByteSlice)
    (e : SearchService D) (path name : String) (data : Option SearchTemplate)
    (reload : Bool) :
    (SearchService.Template w templates e path name data reload).templates
      = if (mapLookup templates (path ++ "/" ++ name)).isSome then templates
        else mapAssign templates (path ++ "/" ++ name)
          (w.readFile (path ++ "/" ++ name)).1 := by
  unfold SearchService.Template
  simp only
  split
  · exact renderTemplate_templates _ _ _ _ _ _ _
  · split
    · rfl
    · exact renderTemplate_templates _ _ _ _ _ _ _

theorem hydrate_frame (w : World D) (e : SearchService D) (resp : SearchResponse)
    (trace : List Event) :
    ∃ object, (hydrate w e resp trace).service = { e with object := object } := by
  unfold hydrate
  split
  · exact ⟨e.object, rfl⟩
  · simp only
    split
    · exact ⟨e.object, rfl⟩
    · split
      · exact ⟨_, rfl⟩
      · exact ⟨_, rfl⟩

theorem hydrate_trace (w : World D) (e : SearchService D) (resp : SearchResponse)
    (trace : List Event) :
    ∃ rest, (hydrate w e resp trace).trace = trace ++ rest := by
  unfold hydrate
  split
  · exact ⟨[], by simp⟩
  · simp only
    split
    · exact ⟨_, rfl⟩
    · split
      · exact ⟨_, rfl⟩
      · exact ⟨_, rfl⟩

theorem Execute_frame (w : World D) (e : SearchService D)
    (order : List (String × ParamValue)) :
    ∃ object, (SearchService.Execute w e order).service
      = { promoteMethod e with object := object } := by
  unfold SearchService.Execute
  simp only
  split
  · exact ⟨(promoteMethod e).object, rfl⟩
  · split
    · exact ⟨(promoteMethod e).object, rfl⟩
    · split
      · exact ⟨(promoteMethod e).object, rfl⟩
      · exact hydrate_frame _ _ _ _

/-- The first call `Execute` makes is `NewRequest` with the promoted method and the URL
built from the state. -/
theorem Execute_requested (w : World D) (e : SearchService D)
    (order : List (String × ParamValue)) :
    requested (SearchService.Execute w e order).trace
      = some ((promoteMethod e).method, requestUrl w (promoteMethod e) order) := by
  unfold SearchService.Execute
  simp only
  split
  · rfl
  · split
    · rfl
    · split
      · rfl
      · obtain ⟨rest, hrest⟩ := hydrate_trace w (promoteMethod e) ‹SearchResponse›
          [Event.newRequest (promoteMethod e).method (requestUrl w (promoteMethod e) order),
            Event.send (promoteMethod e).body, Event.decode ‹ByteSlice›]
        rw [hrest]
        rfl

theorem promoteMethod_fields (e : SearchService D) :
    (promoteMethod e).index = e.index ∧ (promoteMethod e).id = e.id ∧
      (promoteMethod e).parameters = e.parameters ∧ (promoteMethod e).body = e.body ∧
      (promoteMethod e).object = e.object ∧ (promoteMethod e).typ = e.typ := by
  unfold promoteMethod
  split <;> simp

theorem requestUrl_promoteMethod (w : World D) (e : SearchService D)
    (order : List (String × ParamValue)) :
    requestUrl w (promoteMethod e) order = requestUrl w e order := by
  obtain ⟨hindex, hid, hpar, -⟩ := promoteMethod_fields e
  simp [requestUrl, requestQuery, hindex, hid, hpar]

theorem Execute_decoded (w : World D) (e : SearchService D)
    (order : List (String × ParamValue)) (responseBody : ByteSlice) (resp : SearchResponse)
    (hreq : w.newRequest (promoteMethod e).method (requestUrl w (promoteMethod e) order)
      = none)
    (hsend : w.send (promoteMethod e).method (requestUrl w (promoteMethod e) order)
      (promoteMethod e).body = Except.ok responseBody)
    (hdec : w.jsonDecode responseBody = Except.ok resp) :
    SearchService.Execute w e order
      = hydrate w (promoteMethod e) resp
          [Event.newRequest (promoteMethod e).method (requestUrl w (promoteMethod e) order),
            Event.send (promoteMethod e).body, Event.decode responseBody] := by
  unfold SearchService.Execute
  simp only [hreq, hsend, hdec]

/-! ## Claims about `Execute` -/

/-- C1: when the response decodes into an envelope without a generic error, the payload
sequence `Execute` marshals and decodes into the destination has the length of the hit
list, and its element `i` is the `_source` payload of hit `i` for every index `i`; it is
the only sequence marshalled, and the destination afterwards is what decoding the
marshalled array into it produced. -/
theorem hydration_payloads_follow_hits (w : World D) (e : SearchService D)
    (order : List (String × ParamValue)) (resp : SearchResponse)
    (hans : answers w e order resp) (herr : resp.onError = none) :
    ∃ rawHits : List ByteSlice,
      rawHits.length = resp.hits.hits.length ∧
      (∀ i : Nat, rawHits[i]? = (resp.hits.hits[i]?).map (fun h => h.source)) ∧
      Event.marshal rawHits ∈ (SearchService.Execute w e order).trace ∧
      (∀ other, Event.marshal other ∈ (SearchService.Execute w e order).trace →
        other = rawHits) ∧
      ∀ arrayHits, w.jsonMarshal rawHits = Except.ok arrayHits →
        Event.unmarshal arrayHits ∈ (SearchService.Execute w e order).trace ∧
        (SearchService.Execute w e order).service.object
          = (unmarshalObject w arrayHits e.object).1 := by
  obtain ⟨responseBody, hreq, hsend, hdec⟩ := hans
  obtain ⟨-, -, -, -, hobj, -⟩ := promoteMethod_fields e
  refine ⟨fillRawHits resp.hits.hits, ?_, ?_, ?_⟩
  · rw [fillRawHits_eq_map]
    simp
  · intro i
    rw [fillRawHits_eq_map]
    simp
  · rw [Execute_decoded w e order responseBody resp hreq hsend hdec]
    unfold hydrate
    simp only [herr, ne_eq, not_true_eq_false, if_false, hobj]
    cases hm : w.jsonMarshal (fillRawHits resp.hits.hits) with
    | error err => simp
    | ok arrayHits =>
      rcases hu : unmarshalObject w arrayHits e.object with ⟨object, _ | uerr⟩ <;> simp [hu]

/-- C5: when the decoded envelope carries a generic error, `Execute` returns that
envelope with no error, attempts no hydration and leaves the destination as it was,
whatever the hits are and whether or not a destination was supplied. -/
theorem generic_error_returns_envelope (w : World D) (e : SearchService D)
    (order : List (String × ParamValue)) (resp : SearchResponse)
    (hans : answers w e order resp) (herr : resp.onError ≠ none) :
    (SearchService.Execute w e order).response = some resp ∧
      (SearchService.Execute w e order).err = none ∧
      (SearchService.Execute w e order).service.object = e.object ∧
      hydrationAttempted (SearchService.Execute w e order).trace = false := by
  obtain ⟨responseBody, hreq, hsend, hdec⟩ := hans
  obtain ⟨-, -, -, -, hobj, -⟩ := promoteMethod_fields e
  rw [Execute_decoded w e order responseBody resp hreq hsend hdec]
  unfold hydrate
  simp only [herr, ne_eq, not_false_eq_true, if_true, hobj]
  simp [hydrationAttempted]

/-- C7 (amended): when the envelope has no generic error and decoding the marshalled hit
payloads into the destination reports an error, `Execute` returns that error wrapped
and no envelope at all. -/
theorem hydration_failure_returns_error_only (w : World D) (e : SearchService D)
    (order : List (String × ParamValue)) (resp : SearchResponse) (arrayHits : ByteSlice)
    (object : Option D) (uerr : GoError)
    (hans : answers w e order resp) (herr : resp.onError = none)
    (hm : w.jsonMarshal (resp.hits.hits.map (fun h => h.source)) = Except.ok arrayHits)
    (hu : unmarshalObject w arrayHits e.object = (object, some uerr)) :
    (SearchService.Execute w e order).err = some (GoError.wrapped 0 uerr) ∧
      (SearchService.Execute w e order).response = none := by
  obtain ⟨responseBody, hreq, hsend, hdec⟩ := hans
  obtain ⟨-, -, -, -, hobj, -⟩ := promoteMethod_fields e
  rw [Execute_decoded w e order responseBody resp hreq hsend hdec]
  unfold hydrate
  simp only [herr, ne_eq, not_true_eq_false, if_false, hobj, fillRawHits_eq_map, hm, hu]
  simp

/-- C3: the URL `Execute` requests is endpoint, `/`, index, path and query string, where
the path is `/` followed by the identifier when it is non-empty and `/_search`
otherwise; a fresh builder with `Index("persons")` and `Id("42")` requests
`endpoint/persons/42`. -/
theorem url_is_endpoint_index_path_query (w : World D) (e : SearchService D)
    (order : List (String × ParamValue)) (hperm : order.Perm e.parameters) :
    (requested (SearchService.Execute w e order).trace).map (fun r => r.2)
        = some (w.endpoint ++ "/" ++ e.index
            ++ (if e.id ≠ "" then "/" ++ e.id else "/_search") ++ specQueryString order) ∧
      (requested (SearchService.Execute w
          ((NewSearchService.Index "persons").Id "42") []).trace).map (fun r => r.2)
        = some (w.endpoint ++ "/persons/42") := by
  constructor
  · rw [Execute_requested, requestUrl_promoteMethod]
    simp only [Option.map_some', requestUrl, requestQuery_eq e order hperm.length_eq,
      specPath, String.append_assoc]
  · rw [Execute_requested, requestUrl_promoteMethod]
    simp only [Option.map_some', requestUrl, requestQuery, NewSearchService,
      SearchService.Index, SearchService.Id, String.append_assoc]
    have h : "/" ++ ("persons" ++ (List.foldl paramStep
        (if ([] : GoMap ParamValue).length > 0 then
          (if "42" ≠ "" then "" ++ ("/" ++ "42") else "" ++ "/_search") ++ "?"
          else if "42" ≠ "" then "" ++ ("/" ++ "42") else "" ++ "/_search", false) []).1)
        = "/persons/42" := by decide
    rw [h]

/-! ## Call sequences -/

theorem run_concat (w : World D) (σ : Sys D) (ops : List (Op D)) (op : Op D) :
    run w σ (ops ++ [op]) = step w (run w σ ops) op := by
  simp [run, List.foldl_append]

theorem step_parameters (w : World D) (σ : Sys D) (op : Op D) :
    (step w σ op).service.parameters
      = match paramCall op with
        | some p => mapAssign σ.service.parameters p.1 p.2
        | none => σ.service.parameters := by
  cases op with
  | Template path name data reload =>
    obtain ⟨body, hbody⟩ := Template_frame w σ.templates σ.service path name data reload
    simp [step, paramCall, hbody]
  | Execute order =>
    obtain ⟨object, hobject⟩ := Execute_frame w σ.service order
    obtain ⟨-, -, hpar, -⟩ := promoteMethod_fields σ.service
    simp [step, paramCall, hobject, hpar]
  | _ =>
    simp [step, paramCall, SearchService.Index, SearchService.Typ, SearchService.Id,
      SearchService.Body, SearchService.Query, SearchService.Object, SearchService.From,
      SearchService.Size, SearchService.Scroll]

theorem lastSet_concat (ops : List (Op D)) (op : Op D) (key : String) :
    lastSet (ops ++ [op]) key
      = match paramCall op with
        | some p => if p.1 = key then some p.2 else lastSet ops key
        | none => lastSet ops key := by
  unfold lastSet
  cases hop : paramCall op with
  | none => simp [List.filterMap_append, hop]
  | some p =>
    by_cases hk : p.1 = key
    · simp [List.filterMap_append, hop, List.filter_append, hk, List.getLast?_append]
    · simp [List.filterMap_append, hop, List.filter_append, hk]

/-- After any call sequence on a fresh builder, the entries of the parameter map under a
key are exactly the value of the last call that set this key. -/
theorem run_parameters (w : World D) (templates : GoMap ByteSlice) (ops : List (Op D))
    (key : String) :
    (run w (fresh templates) ops).service.parameters.filter (fun p => p.1 == key)
      = match lastSet ops key with
        | some v => [(key, v)]
        | none => [] := by
  induction ops using List.reverseRecOn with
  | nil => simp [run, fresh, NewSearchService, lastSet]
  | append_singleton ops op ih =>
    rw [run_concat, step_parameters, lastSet_concat]
    cases hop : paramCall op with
    | none => simpa using ih
    | some p =>
      simp only [filter_key_mapAssign]
      by_cases hk : p.1 = key
      · simp [hk]
      · simpa [hk] using ih

theorem step_method_of_not_execute (w : World D) (σ : Sys D) (op : Op D)
    (hop : ∀ order, op ≠ Op.Execute order) :
    (step w σ op).service.method = σ.service.method := by
  cases op with
  | Template path name data reload =>
    obtain ⟨body, hbody⟩ := Template_frame w σ.templates σ.service path name data reload
    simp [step, hbody]
  | Execute order => exact absurd rfl (hop order)
  | _ =>
    simp [step, SearchService.Index, SearchService.Typ, SearchService.Id,
      SearchService.Body, SearchService.Query, SearchService.Object, SearchService.From,
      SearchService.Size, SearchService.Scroll]

/-- The stored method is still `GET` as long as no `Execute` of the sequence ran with a
non-nil body. -/
theorem run_method_get (w : World D) (templates : GoMap ByteSlice) (ops : List (Op D))
    (hnil : ∀ pre order post, ops = pre ++ Op.Execute order :: post →
      (run w (fresh templates) pre).service.body = none) :
    (run w (fresh templates) ops).service.method = Method.get := by
  induction ops using List.reverseRecOn with
  | nil => simp [run, fresh, NewSearchService]
  | append_singleton ops op ih =>
    have hget : (run w (fresh templates) ops).service.method = Method.get := by
      apply ih
      intro pre order post hops
      apply hnil pre order (post ++ [op])
      rw [hops]
      simp
    rw [run_concat]
    by_cases hex : ∃ order, op = Op.Execute order
    · obtain ⟨order, rfl⟩ := hex
      have hbody := hnil ops order [] rfl
      obtain ⟨object, hobject⟩ := Execute_frame w (run w (fresh templates) ops).service order
      simp only [step, hobject]
      simp [promoteMethod, hbody, hget]
    · rw [step_method_of_not_execute w _ op (fun order h => hex ⟨order, h⟩)]
      exact hget

theorem step_templates_lookup (w : World D) (σ : Sys D) (op : Op D) (key : String)
    (bytes : ByteSlice) (h : mapLookup σ.templates key = some bytes) :
    mapLookup (step w σ op).templates key = some bytes := by
  cases op with
  | Template path name data reload =>
    simp only [step, Template_templates]
    by_cases hc : (mapLookup σ.templates (path ++ "/" ++ name)).isSome
    · simpa [hc] using h
    · have hne : key ≠ path ++ "/" ++ name := by
        intro heq
        rw [← heq, h] at hc
        exact hc rfl
      simp only [hc, Bool.false_eq_true, if_false, mapLookup_mapAssign, hne]
      exact h
  | _ => simpa [step] using h

theorem run_templates_lookup (w : World D) (σ : Sys D) (ops : List (Op D)) (key : String)
    (bytes : ByteSlice) (h : mapLookup σ.templates key = some bytes) :
    mapLookup (run w σ ops).templates key = some bytes := by
  induction ops using List.reverseRecOn with
  | nil => simpa [run] using h
  | append_singleton ops op ih =>
    rw [run_concat]
    exact step_templates_lookup w _ op key bytes ih

/-! ## Claims about the method and the query string -/

/-- C2 (amended): for every builder reached from `NewSearchService` by setter, `Template`
and `Execute` calls, `Execute` requests with `POST` when the body is non-nil at that call
(a non-nil body of length zero included), and with `GET` when the body is nil at that
call and was nil at every earlier `Execute` call of the sequence. -/
theorem method_follows_body (w : World D) (templates : GoMap ByteSlice)
    (ops : List (Op D)) (order : List (String × ParamValue)) :
    ((run w (fresh templates) ops).service.body ≠ none →
        (requested (SearchService.Execute w (run w (fresh templates) ops).service
          order).trace).map (fun r => r.1) = some Method.post) ∧
      ((run w (fresh templates) ops).service.body = none →
        (∀ pre earlier post, ops = pre ++ Op.Execute earlier :: post →
          (run w (fresh templates) pre).service.body = none) →
        (requested (SearchService.Execute w (run w (fresh templates) ops).service
          order).trace).map (fun r => r.1) = some Method.get) := by
  constructor
  · intro hbody
    rw [Execute_requested]
    simp [promoteMethod, hbody]
  · intro hbody hnil
    rw [Execute_requested]
    simp [promoteMethod, hbody, run_method_get w templates ops hnil]

/-- C4: after any sequence of calls on a fresh builder, the URL `Execute` requests ends
with the query string, which is empty when no parameter was set and otherwise `?`
followed by the `key=value` pairs joined by `&`; among these pairs every key that was
set occurs exactly once, with the value of its last call, and a key never set does not
occur. -/
theorem query_string_has_last_values (w : World D) (templates : GoMap ByteSlice)
    (ops : List (Op D)) (order : List (String × ParamValue))
    (hperm : order.Perm (run w (fresh templates) ops).service.parameters) :
    (requested (SearchService.Execute w (run w (fresh templates) ops).service
        order).trace).map (fun r => r.2)
      = some (w.endpoint ++ "/" ++ (run w (fresh templates) ops).service.index
          ++ specPath (run w (fresh templates) ops).service.id
          ++ specQueryString order) ∧
    (ops.filterMap paramCall = [] → specQueryString order = "") ∧
    ∀ key : String,
      order.filter (fun p => p.1 == key)
        = match lastSet ops key with
          | some v => [(key, v)]
          | none => [] := by
  have hkeys : ∀ key : String, order.filter (fun p => p.1 == key)
      = match lastSet ops key with
        | some v => [(key, v)]
        | none => [] := by
    intro key
    have hp := (hperm.filter (fun p => p.1 == key))
    rw [run_parameters] at hp
    cases hl : lastSet ops key with
    | none =>
      rw [hl] at hp
      simpa using hp.eq_nil
    | some v =>
      rw [hl] at hp
      simpa using List.perm_singleton.mp hp
  refine ⟨?_, ?_, hkeys⟩
  · rw [Execute_requested, requestUrl_promoteMethod]
    simp only [Option.map_some', requestUrl, requestQuery_eq _ order hperm.length_eq,
      String.append_assoc]
  · intro hnone
    cases order with
    | nil => rfl
    | cons p t =>
      have hk := hkeys p.1
      simp [lastSet, hnone] at hk

/-! ## Claims about `Template` -/

/-- C8: when a `Template` call fails, because the file read fails, the template source
does not parse or executing the template fails, the builder after the call equals the
builder before it: the body and every other field are unchanged. -/
theorem failed_template_keeps_builder (w : World D) (templates : GoMap ByteSlice)
    (e : SearchService D) (path name : String) (data : Option SearchTemplate)
    (reload : Bool)
    (hfail : (mapLookup templates (path ++ "/" ++ name) = none ∧
          (w.readFile (path ++ "/" ++ name)).2 ≠ none) ∨
        w.parse name (goString (templateSource w templates (path ++ "/" ++ name))) ≠ none ∨
        (w.executeTemplate name
          (goString (templateSource w templates (path ++ "/" ++ name))) data).2 ≠ none) :
    (SearchService.Template w templates e path name data reload).service = e := by
  unfold SearchService.Template
  simp only
  cases hc : mapLookup templates (path ++ "/" ++ name) with
  | some bytes =>
    simp only [Option.isSome_some, if_true]
    apply renderTemplate_fail
    rcases hfail with ⟨habs, -⟩ | h
    · rw [hc] at habs
      exact absurd habs (by simp)
    · simpa [templateSource, hc] using h
  | none =>
    simp only [Option.isSome_none, Bool.false_eq_true, if_false]
    cases hr : (w.readFile (path ++ "/" ++ name)).2 with
    | some err => rfl
    | none =>
      simp only
      apply renderTemplate_fail
      rcases hfail with ⟨-, hread⟩ | h
      · exact absurd hr hread
      · simpa [templateSource, hc, mapLookup_mapAssign] using h

/-- C9: when the key `path/name` is already in the cache, a `Template` call reads no file
and leaves the cache as it was, whatever the data and the reload flag; and through any
later sequence of calls the entry keeps its value. -/
theorem cached_template_never_reread (w : World D) (templates : GoMap ByteSlice)
    (e : SearchService D) (path name : String) (data : Option SearchTemplate)
    (reload : Bool) (bytes : ByteSlice)
    (hpresent : mapLookup templates (path ++ "/" ++ name) = some bytes) :
    fileReads (SearchService.Template w templates e path name data reload).trace = [] ∧
      (SearchService.Template w templates e path name data reload).templates = templates ∧
      ∀ (σ : Sys D) (ops : List (Op D)), σ.templates = templates →
        mapLookup (run w σ ops).templates (path ++ "/" ++ name) = some bytes := by
  have hsome : (mapLookup templates (path ++ "/" ++ name)).isSome := by simp [hpresent]
  refine ⟨?_, ?_, ?_⟩
  · rw [Template_cached w templates e path name data reload hsome]
    obtain ⟨rest, htrace, hreads⟩ :=
      renderTemplate_trace w templates e (path ++ "/" ++ name) name data []
    rw [htrace]
    simpa [fileReads] using hreads
  · rw [Template_templates]
    simp [hsome]
  · intro σ ops hσ
    apply run_templates_lookup
    rw [hσ]
    exact hpresent

/-- C10: when the key `path/name` is absent and the file read fails, the cache afterwards
maps the key to the bytes the failed read returned; a later `Template` call with the same
path and name then reads no file, parses those cached bytes and leaves the cache as it
is. -/
theorem failed_read_is_cached (w : World D) (templates : GoMap ByteSlice)
    (e : SearchService D) (path name : String) (data : Option SearchTemplate)
    (reload : Bool) (bytes : ByteSlice) (err : GoError)
    (habsent : mapLookup templates (path ++ "/" ++ name) = none)
    (hread : w.readFile (path ++ "/" ++ name) = (bytes, some err)) :
    mapLookup (SearchService.Template w templates e path name data reload).templates
        (path ++ "/" ++ name) = some bytes ∧
      fileReads (SearchService.Template w templates e path name data reload).trace
        = [path ++ "/" ++ name] ∧
      ∀ (later : SearchService D) (data2 : Option SearchTemplate) (reload2 : Bool),
        fileReads (SearchService.Template w
            (SearchService.Template w templates e path name data reload).templates
            later path name data2 reload2).trace = [] ∧
          (SearchService.Template w
            (SearchService.Template w templates e path name data reload).templates
            later path name data2 reload2).trace.head?
            = some (Event.parse name (goString bytes)) ∧
          (SearchService.Template w
            (SearchService.Template w templates e path name data reload).templates
            later path name data2 reload2).templates
            = (SearchService.Template w templates e path name data reload).templates := by
  have htemplates : (SearchService.Template w templates e path name data reload).templates
      = mapAssign templates (path ++ "/" ++ name) bytes := by
    rw [Template_templates]
    simp [habsent, hread]
  have hlookup : mapLookup (mapAssign templates (path ++ "/" ++ name) bytes)
      (path ++ "/" ++ name) = some bytes := by
    simp [mapLookup_mapAssign]
  have hsome : (mapLookup (mapAssign templates (path ++ "/" ++ name) bytes)
      (path ++ "/" ++ name)).isSome := by simp [hlookup]
  refine ⟨?_, ?_, ?_⟩
  · rw [htemplates]
    exact hlookup
  · unfold SearchService.Template
    simp [habsent, hread, fileReads]
  · intro later data2 reload2
    rw [htemplates, Template_cached w _ later path name data2 reload2 hsome]
    obtain ⟨rest, htrace, hreads⟩ := renderTemplate_trace w
      (mapAssign templates (path ++ "/" ++ name) bytes) later (path ++ "/" ++ name) name
      data2 []
    refine ⟨?_, ?_, renderTemplate_templates _ _ _ _ _ _ _⟩
    · rw [htrace]
      simpa [fileReads] using hreads
    · rw [htrace, hlookup]
      simp

/-! ## Evaluation on concrete inputs -/

/-- The two-hit envelope of the hydration example: the payloads are the two documents, in hit order. -/
theorem hydration_payloads_follow_hits_witness :
    answers demoOk demoBuilder [] demoEnvelope ∧ demoEnvelope.onError = none ∧
      fillRawHits demoEnvelope.hits.hits
        = [some "\x7b\"a\":1\x7d", some "\x7b\"a\":2\x7d"] ∧
      ∃ rawHits : List ByteSlice,
        rawHits.length = demoEnvelope.hits.hits.length ∧
        (∀ i : Nat, rawHits[i]? = (demoEnvelope.hits.hits[i]?).map (fun h => h.source)) ∧
        Event.marshal rawHits ∈ (SearchService.Execute demoOk demoBuilder []).trace ∧
        (∀ other, Event.marshal other ∈ (SearchService.Execute demoOk demoBuilder []).trace →
          other = rawHits) ∧
        ∀ arrayHits, demoOk.jsonMarshal rawHits = Except.ok arrayHits →
          Event.unmarshal arrayHits ∈ (SearchService.Execute demoOk demoBuilder []).trace ∧
          (SearchService.Execute demoOk demoBuilder []).service.object
            = (unmarshalObject demoOk arrayHits demoBuilder.object).1 :=
  ⟨⟨some "response", rfl, rfl, rfl⟩, rfl, by decide,
    hydration_payloads_follow_hits demoOk demoBuilder [] demoEnvelope
      ⟨some "response", rfl, rfl, rfl⟩ rfl⟩

/-- An envelope with a generic error and hits, on a builder without destination. -/
theorem generic_error_returns_envelope_witness :
    answers (demoWorld demoErrorEnvelope [1, 2] false) demoLookup [] demoErrorEnvelope ∧
      demoErrorEnvelope.onError ≠ none ∧
      (SearchService.Execute (demoWorld demoErrorEnvelope [1, 2] false) demoLookup
        []).response = some demoErrorEnvelope ∧
      (SearchService.Execute (demoWorld demoErrorEnvelope [1, 2] false) demoLookup
        []).err = none ∧
      (SearchService.Execute (demoWorld demoErrorEnvelope [1, 2] false) demoLookup
        []).service.object = demoLookup.object ∧
      hydrationAttempted (SearchService.Execute (demoWorld demoErrorEnvelope [1, 2] false)
        demoLookup []).trace = false :=
  ⟨⟨some "response", rfl, rfl, rfl⟩, by decide,
    generic_error_returns_envelope (demoWorld demoErrorEnvelope [1, 2] false) demoLookup []
      demoErrorEnvelope ⟨some "response", rfl, rfl, rfl⟩ (by decide)⟩

/-- C6: on an envelope of the not-found form and a builder without destination,
`Execute` marshals the empty hit list, tries to decode it into the nil destination and
returns the resulting error with no envelope. -/
theorem not_found_envelope_is_hydrated :
    answers (demoWorld demoNotFound [] false) demoLookup [] demoNotFound ∧
      demoNotFound.onError = none ∧
      demoNotFound.notFound.map (fun m => m.found) = some false ∧
      demoLookup.object = none ∧
      hydrationAttempted (SearchService.Execute (demoWorld demoNotFound [] false)
        demoLookup []).trace = true ∧
      (SearchService.Execute (demoWorld demoNotFound [] false) demoLookup []).response
        = none ∧
      (SearchService.Execute (demoWorld demoNotFound [] false) demoLookup []).err
        = some (GoError.wrapped 0 (GoError.cause "json: Unmarshal(nil)")) :=
  ⟨⟨some "response", rfl, rfl, rfl⟩, by decide, by decide, by decide, by decide, by decide,
    by decide⟩

/-- C7 (as stated, refuted): the two-hit envelope decodes without generic error, the
payloads cannot be decoded into the destination, and `Execute` returns the error with
no envelope, so `took` cannot be read from the returned value. -/
theorem hydration_failure_drops_envelope :
    answers demoMismatch demoBuilder [] demoEnvelope ∧ demoEnvelope.onError = none ∧
      (SearchService.Execute demoMismatch demoBuilder []).err
        = some (GoError.wrapped 0 (GoError.cause "json: cannot unmarshal")) ∧
      (SearchService.Execute demoMismatch demoBuilder []).response = none ∧
      (SearchService.Execute demoMismatch demoBuilder []).response.map (fun r => r.took)
        ≠ some demoEnvelope.took :=
  ⟨⟨some "response", rfl, rfl, rfl⟩, by decide, by decide, by decide, by decide⟩

/-- The two-hit envelope on a destination the payloads do not fit. -/
theorem hydration_failure_returns_error_only_witness :
    answers demoMismatch demoBuilder [] demoEnvelope ∧ demoEnvelope.onError = none ∧
      demoMismatch.jsonMarshal (demoEnvelope.hits.hits.map (fun h => h.source))
        = Except.ok (some "[\x7b\"a\":1\x7d,\x7b\"a\":2\x7d]") ∧
      unmarshalObject demoMismatch (some "[\x7b\"a\":1\x7d,\x7b\"a\":2\x7d]")
          demoBuilder.object
        = (some [], some (GoError.cause "json: cannot unmarshal")) ∧
      (SearchService.Execute demoMismatch demoBuilder []).err
        = some (GoError.wrapped 0 (GoError.cause "json: cannot unmarshal")) ∧
      (SearchService.Execute demoMismatch demoBuilder []).response = none :=
  ⟨⟨some "response", rfl, rfl, rfl⟩, rfl, rfl, by decide,
    hydration_failure_returns_error_only demoMismatch demoBuilder [] demoEnvelope
      (some "[\x7b\"a\":1\x7d,\x7b\"a\":2\x7d]") (some [])
      (GoError.cause "json: cannot unmarshal") ⟨some "response", rfl, rfl, rfl⟩ rfl
      rfl (by decide)⟩

/-- A builder on `persons` with `from=0` and `size=10`, iterated in that order. -/
theorem url_is_endpoint_index_path_query_witness :
    List.Perm [("from", ParamValue.int 0), ("size", ParamValue.int 10)]
        ((demoBuilder.From 0).Size 10).parameters ∧
      (requested (SearchService.Execute demoOk ((demoBuilder.From 0).Size 10)
          [("from", ParamValue.int 0), ("size", ParamValue.int 10)]).trace).map
            (fun r => r.2)
        = some "http://localhost:9200/persons/_search?from=0&size=10" ∧
      ((requested (SearchService.Execute demoOk ((demoBuilder.From 0).Size 10)
          [("from", ParamValue.int 0), ("size", ParamValue.int 10)]).trace).map
            (fun r => r.2)
          = some (demoOk.endpoint ++ "/" ++ ((demoBuilder.From 0).Size 10).index
              ++ (if ((demoBuilder.From 0).Size 10).id ≠ "" then
                    "/" ++ ((demoBuilder.From 0).Size 10).id else "/_search")
              ++ specQueryString [("from", ParamValue.int 0), ("size", ParamValue.int 10)]) ∧
        (requested (SearchService.Execute demoOk
            ((NewSearchService.Index "persons").Id "42") []).trace).map (fun r => r.2)
          = some (demoOk.endpoint ++ "/persons/42")) :=
  ⟨by decide, by decide,
    url_is_endpoint_index_path_query demoOk ((demoBuilder.From 0).Size 10)
      [("from", ParamValue.int 0), ("size", ParamValue.int 10)] (by decide)⟩

/-- C2 (as stated, refuted): after `Body(q)`, `Execute`, `Body(nil)` the body is nil and
the next `Execute` still requests with `POST`; and a fresh builder with a non-nil body
of length zero requests with `POST`. -/
theorem method_stays_post_after_body_reset :
    (run demoOk (fresh []) [Op.Body (some "q"), Op.Execute [], Op.Body none]).service.body
        = none ∧
      (requested (SearchService.Execute demoOk
          (run demoOk (fresh []) [Op.Body (some "q"), Op.Execute [], Op.Body none]).service
          []).trace).map (fun r => r.1) = some Method.post ∧
      (requested (SearchService.Execute demoOk
          (run demoOk (fresh []) [Op.Body (some "")]).service []).trace).map (fun r => r.1)
        = some Method.post :=
  ⟨by decide, by decide, by decide⟩

/-- A fresh builder with a body requests with `POST`; one that executed once without body requests with `GET`. -/
theorem method_follows_body_witness :
    ((run demoOk (fresh []) [Op.Body (some "q")]).service.body ≠ none ∧
        (requested (SearchService.Execute demoOk
          (run demoOk (fresh []) [Op.Body (some "q")]).service []).trace).map
            (fun r => r.1) = some Method.post) ∧
      ((run demoOk (fresh []) [Op.Execute [], Op.Index "persons"]).service.body = none ∧
        (requested (SearchService.Execute demoOk
          (run demoOk (fresh []) [Op.Execute [], Op.Index "persons"]).service []).trace).map
            (fun r => r.1) = some Method.get) :=
  ⟨⟨by decide,
      (method_follows_body demoOk [] [Op.Body (some "q")] []).1 (by decide)⟩,
    ⟨by decide,
      (method_follows_body demoOk [] [Op.Execute [], Op.Index "persons"] []).2
        (by decide)
        (by
          intro pre earlier post h
          rcases pre with _ | ⟨a, _ | ⟨b, t⟩⟩
          · decide
          · simp at h
          · simp at h)⟩⟩

/-- The sequence `From(0)`, `Size(10)`, `From(5)`, `Index`, `Scroll("1m")` iterated as scroll, from, size. -/
theorem query_string_has_last_values_witness :
    List.Perm [("scroll", ParamValue.str "1m"), ("from", ParamValue.int 5),
          ("size", ParamValue.int 10)]
        (run demoOk (fresh []) demoOps).service.parameters ∧
      (requested (SearchService.Execute demoOk (run demoOk (fresh []) demoOps).service
          [("scroll", ParamValue.str "1m"), ("from", ParamValue.int 5),
            ("size", ParamValue.int 10)]).trace).map (fun r => r.2)
        = some "http://localhost:9200/persons/_search?scroll=1m&from=5&size=10" ∧
      ((requested (SearchService.Execute demoOk (run demoOk (fresh []) demoOps).service
          [("scroll", ParamValue.str "1m"), ("from", ParamValue.int 5),
            ("size", ParamValue.int 10)]).trace).map (fun r => r.2)
        = some (demoOk.endpoint ++ "/" ++ (run demoOk (fresh []) demoOps).service.index
            ++ specPath (run demoOk (fresh []) demoOps).service.id
            ++ specQueryString [("scroll", ParamValue.str "1m"), ("from", ParamValue.int 5),
                ("size", ParamValue.int 10)]) ∧
      (demoOps.filterMap paramCall = [] →
        specQueryString [("scroll", ParamValue.str "1m"), ("from", ParamValue.int 5),
          ("size", ParamValue.int 10)] = "") ∧
      ∀ key : String,
        List.filter (fun p => p.1 == key)
            [("scroll", ParamValue.str "1m"), ("from", ParamValue.int 5),
              ("size", ParamValue.int 10)]
          = match lastSet demoOps key with
            | some v => [(key, v)]
            | none => []) :=
  ⟨by decide, by decide,
    query_string_has_last_values demoOk [] demoOps
      [("scroll", ParamValue.str "1m"), ("from", ParamValue.int 5),
        ("size", ParamValue.int 10)] (by decide)⟩

/-- A raw body followed by a template whose file cannot be read: the raw body stays. -/
theorem failed_template_keeps_builder_witness :
    ((mapLookup ([] : GoMap ByteSlice) ("tpl" ++ "/" ++ "q") = none ∧
          (demoOk.readFile ("tpl" ++ "/" ++ "q")).2 ≠ none) ∨
        demoOk.parse "q" (goString (templateSource demoOk [] ("tpl" ++ "/" ++ "q"))) ≠ none ∨
        (demoOk.executeTemplate "q"
          (goString (templateSource demoOk [] ("tpl" ++ "/" ++ "q"))) none).2 ≠ none) ∧
      (SearchService.Template demoOk [] (demoBuilder.Body (some "raw")) "tpl" "q" none
        false).service = demoBuilder.Body (some "raw") :=
  ⟨Or.inl ⟨by decide, by decide⟩,
    failed_template_keeps_builder demoOk [] (demoBuilder.Body (some "raw")) "tpl" "q" none
      false (Or.inl ⟨by decide, by decide⟩)⟩

/-- A cache that already holds `tpl/q`, with the reload flag set. -/
theorem cached_template_never_reread_witness :
    mapLookup [("tpl/q", (some "" : ByteSlice))] ("tpl" ++ "/" ++ "q") = some (some "") ∧
      fileReads (SearchService.Template demoOk [("tpl/q", some "")] demoBuilder "tpl" "q"
        none true).trace = [] ∧
      (SearchService.Template demoOk [("tpl/q", some "")] demoBuilder "tpl" "q" none
        true).templates = [("tpl/q", some "")] ∧
      ∀ (σ : Sys (List Int)) (ops : List (Op (List Int))),
        σ.templates = [("tpl/q", some "")] →
        mapLookup (run demoOk σ ops).templates ("tpl" ++ "/" ++ "q") = some (some "") :=
  ⟨by decide,
    cached_template_never_reread demoOk [("tpl/q", some "")] demoBuilder "tpl" "q" none true
      (some "") (by decide)⟩

/-- An empty cache and a file read that fails with nil bytes. -/
theorem failed_read_is_cached_witness :
    mapLookup ([] : GoMap ByteSlice) ("tpl" ++ "/" ++ "q") = none ∧
      demoOk.readFile ("tpl" ++ "/" ++ "q")
        = (none, some (GoError.cause "open: no such file")) ∧
      mapLookup (SearchService.Template demoOk [] demoBuilder "tpl" "q" none false).templates
        ("tpl" ++ "/" ++ "q") = some none ∧
      fileReads (SearchService.Template demoOk [] demoBuilder "tpl" "q" none false).trace
        = ["tpl" ++ "/" ++ "q"] ∧
      ∀ (later : SearchService (List Int)) (data2 : Option SearchTemplate) (reload2 : Bool),
        fileReads (SearchService.Template demoOk
            (SearchService.Template demoOk [] demoBuilder "tpl" "q" none false).templates
            later "tpl" "q" data2 reload2).trace = [] ∧
          (SearchService.Template demoOk
            (SearchService.Template demoOk [] demoBuilder "tpl" "q" none false).templates
            later "tpl" "q" data2 reload2).trace.head?
            = some (Event.parse "q" (goString none)) ∧
          (SearchService.Template demoOk
            (SearchService.Template demoOk [] demoBuilder "tpl" "q" none false).templates
            later "tpl" "q" data2 reload2).templates
            = (SearchService.Template demoOk [] demoBuilder "tpl" "q" none false).templates :=
  ⟨by decide, rfl,
    failed_read_is_cached demoOk [] demoBuilder "tpl" "q" none false none
      (GoError.cause "open: no such file") (by decide) rfl⟩

end Elastic
